import Mathlib

/-!
Verification of the virtual-kubelet-manager translation layer, MQTT transport
client and root command against the repository's design specification.

The MQTT client (`Mqtt` namespace) and the root command (`Root` namespace) are
shallow embeddings of the Go sources; the model translator (`Ark` namespace) is
modelled from the specification because only its test file ships with the
repository.
-/

namespace Ark

/-- The remote-module descriptor `{BizName, BizVersion, BizUrl}` of the ark model
(fields as used by the tests in the repository). -/
structure BizModel where
  bizName : String
  bizVersion : String
  bizUrl : String
  deriving DecidableEq

/-- The remote-reported runtime info for an installed module. -/
structure ArkBizInfo where
  bizName : String
  bizVersion : String
  bizState : String
  mainClass : String
  webContextPath : String
  deriving DecidableEq

/-- An environment variable of a core/v1 Container. -/
structure EnvVar where
  name : String
  value : String
  deriving DecidableEq

/-- A core/v1 Container restricted to the fields the translator reads. -/
structure Container where
  name : String
  image : String
  workingDir : String
  env : List EnvVar
  deriving DecidableEq

/-- core/v1 ContainerStateWaiting. -/
structure ContainerStateWaiting where
  reason : String
  message : String
  deriving DecidableEq

/-- core/v1 ContainerStateRunning; the single field records that the start time is set. -/
structure ContainerStateRunning where
  startedAtSet : Bool
  deriving DecidableEq

/-- core/v1 ContainerStateTerminated. -/
structure ContainerStateTerminated where
  exitCode : Int
  reason : String
  deriving DecidableEq

/-- core/v1 ContainerState: at most one of the three branches is populated. -/
structure ContainerState where
  waiting : Option ContainerStateWaiting
  running : Option ContainerStateRunning
  terminated : Option ContainerStateTerminated
  deriving DecidableEq

/-- core/v1 ContainerStatus restricted to the fields the tests observe. -/
structure V1ContainerStatus where
  name : String
  state : ContainerState
  deriving DecidableEq

/-- Modelled from the spec: `BizInfoToContainerStatus(desiredBizModel,
observedArkBizInfoOrNil)` of the Model Translator, whose implementation file is
not among the repository sources (only its test
`TestModelUtils_TranslateArkBizInfoToV1ContainerStatus` is). The state table of
the spec: absent (nil) yields Waiting with reason BizPending; RESOLVED yields
Waiting with reason BizResolved; ACTIVATED yields Running with the start time
set; DEACTIVATED yields Terminated; any other state string yields Waiting whose
reason carries the raw unknown state. -/
def translateArkBizInfoToV1ContainerStatus (m : BizModel) (b : Option ArkBizInfo) :
    V1ContainerStatus :=
  match b with
  | none =>
    { name := m.bizName
      state :=
        { waiting := some { reason := "BizPending", message := "waiting for biz install" }
          running := none
          terminated := none } }
  | some info =>
    if info.bizState = "RESOLVED" then
      { name := m.bizName
        state :=
          { waiting := some { reason := "BizResolved", message := "biz resolved" }
            running := none
            terminated := none } }
    else if info.bizState = "ACTIVATED" then
      { name := m.bizName
        state :=
          { waiting := none
            running := some { startedAtSet := true }
            terminated := none } }
    else if info.bizState = "DEACTIVATED" then
      { name := m.bizName
        state :=
          { waiting := none
            running := none
            terminated := some { exitCode := 1, reason := "BizDeactivated" } } }
    else
      { name := m.bizName
        state :=
          { waiting := some { reason := info.bizState, message := "unknown biz state" }
            running := none
            terminated := none } }

/-- Modelled from the spec: the value of the env var `BIZ_VERSION` of a
container, or the empty string when no such variable is present. -/
def getBizVersionFromContainer (c : Container) : String :=
  match c.env.find? (fun e => e.name == "BIZ_VERSION") with
  | some e => e.value
  | none => ""

/-- Modelled from the spec: `ContainerToBizModel(container)`: Name = container
name; Url = container image field; Version = value of env var `BIZ_VERSION` or
empty string (implementation not among the repository sources; cross-checked
against `TestModelUtils_TranslateCoreV1ContainerToBizModel`). -/
def translateCoreV1ContainerToBizModel (c : Container) : BizModel :=
  { bizName := c.name
    bizUrl := c.image
    bizVersion := getBizVersionFromContainer c }

/-- Modelled from the spec: `CompareBizModel(a, b)` is true iff
`(a.Name, a.Version) == (b.Name, b.Version)`; Url is not part of identity
(implementation not among the repository sources; cross-checked against
`TestModelUtils_CmpBizModel`). -/
def cmpBizModel (a b : BizModel) : Bool :=
  a.bizName == b.bizName && a.bizVersion == b.bizVersion

/-- A node taint. -/
structure Taint where
  key : String
  value : String
  effect : String
  deriving DecidableEq

/-- core/v1 NodePhase. -/
inductive NodePhase
  | pending
  | running
  | terminated
  deriving DecidableEq

/-- A node address entry. -/
structure NodeAddress where
  addressType : String
  address : String
  deriving DecidableEq

/-- core/v1 NodeSpec restricted to the fields the translator writes. -/
structure NodeSpec where
  taints : List Taint
  deriving DecidableEq

/-- core/v1 NodeStatus restricted to the fields the translator writes. -/
structure NodeStatus where
  phase : NodePhase
  addresses : List NodeAddress
  deriving DecidableEq

/-- A core/v1 Node restricted to the fields the translator touches. -/
structure Node where
  name : String
  labels : List (String × String)
  spec : NodeSpec
  status : NodeStatus
  deriving DecidableEq

/-- The configuration a virtual node is built from. -/
structure BuildVirtualNodeConfig where
  nodeIP : String
  bizName : String
  techStack : String
  version : String
  deriving DecidableEq

/-- Modelled from the spec: `BuildVirtualNode(config, nodeOut)` populates a
Node spec/status/taints from the config; always sets exactly one taint (marking
the node as virtual so normal workloads are not scheduled onto it) and the
pending phase (implementation not among the repository sources; cross-checked
against `TestModelUtils_BuildVirtualNode`). -/
def buildVirtualNode (cfg : BuildVirtualNodeConfig) (n : Node) : Node :=
  { n with
    name := "virtual-node-" ++ cfg.bizName
    labels :=
      [("base.koupleless.io/stack", cfg.techStack), ("base.koupleless.io/version", cfg.version)]
    spec :=
      { taints :=
          [{ key := "schedule.koupleless.io/virtual-node", value := "True", effect := "NoExecute" }] }
    status :=
      { phase := NodePhase.pending
        addresses := [{ addressType := "InternalIP", address := cfg.nodeIP }] } }

end Ark

namespace Ark

/-- C1: TranslateArkBizInfoToV1ContainerStatus maps the observed state by a
fixed memoryless table: nil yields Waiting with reason BizPending; RESOLVED
yields Waiting with reason BizResolved; ACTIVATED yields a non-nil Running
state; DEACTIVATED yields a non-nil Terminated state; any other state string
yields a Waiting state whose reason carries the raw unmapped state. The result
is a pure function of the pair (m, b). -/
theorem translateArkBizInfo_matches_state_table (m : BizModel) (b : Option ArkBizInfo) :
    (b = none →
      (translateArkBizInfoToV1ContainerStatus m b).state.waiting.map
          ContainerStateWaiting.reason = some "BizPending" ∧
      (translateArkBizInfoToV1ContainerStatus m b).state.running = none ∧
      (translateArkBizInfoToV1ContainerStatus m b).state.terminated = none) ∧
    (∀ i : ArkBizInfo, b = some i →
      (i.bizState = "RESOLVED" →
        (translateArkBizInfoToV1ContainerStatus m b).state.waiting.map
            ContainerStateWaiting.reason = some "BizResolved") ∧
      (i.bizState = "ACTIVATED" →
        (translateArkBizInfoToV1ContainerStatus m b).state.running ≠ none) ∧
      (i.bizState = "DEACTIVATED" →
        (translateArkBizInfoToV1ContainerStatus m b).state.terminated ≠ none) ∧
      (i.bizState ≠ "RESOLVED" → i.bizState ≠ "ACTIVATED" → i.bizState ≠ "DEACTIVATED" →
        (translateArkBizInfoToV1ContainerStatus m b).state.waiting.map
            ContainerStateWaiting.reason = some i.bizState)) := by
  constructor
  · rintro rfl
    exact ⟨rfl, rfl, rfl⟩
  · rintro i rfl
    refine ⟨?_, ?_, ?_, ?_⟩
    · intro h
      simp [translateArkBizInfoToV1ContainerStatus, h]
    · intro h
      simp [translateArkBizInfoToV1ContainerStatus, h]
    · intro h
      simp [translateArkBizInfoToV1ContainerStatus, h]
    · intro h1 h2 h3
      simp [translateArkBizInfoToV1ContainerStatus, h1, h2, h3]

/-- C2: TranslateCoreV1ContainerToBizModel returns a BizModel whose BizName is
the container name, whose BizUrl is the container image, and whose BizVersion
is the value of the env var BIZ_VERSION, or the empty string when absent. -/
theorem translateContainer_to_bizModel_fields (c : Container) :
    (translateCoreV1ContainerToBizModel c).bizName = c.name ∧
    (translateCoreV1ContainerToBizModel c).bizUrl = c.image ∧
    (∀ e : EnvVar, c.env.find? (fun x => x.name == "BIZ_VERSION") = some e →
      (translateCoreV1ContainerToBizModel c).bizVersion = e.value) ∧
    ((∀ e ∈ c.env, e.name ≠ "BIZ_VERSION") →
      (translateCoreV1ContainerToBizModel c).bizVersion = "") := by
  refine ⟨rfl, rfl, ?_, ?_⟩
  · intro e he
    simp [translateCoreV1ContainerToBizModel, getBizVersionFromContainer, he]
  · intro h
    have hnone : c.env.find? (fun x => x.name == "BIZ_VERSION") = none := by
      rw [List.find?_eq_none]
      intro e he
      simpa using h e he
    simp [translateCoreV1ContainerToBizModel, getBizVersionFromContainer, hnone]

/-- C3: CmpBizModel is true iff the BizName and BizVersion fields agree; it is
reflexive and independent of the BizUrl field of either argument. -/
theorem cmpBizModel_name_version_iff (a b : BizModel) :
    (cmpBizModel a b = true ↔ a.bizName = b.bizName ∧ a.bizVersion = b.bizVersion) ∧
    cmpBizModel a a = true ∧
    (∀ u v : String,
      cmpBizModel { a with bizUrl := u } { b with bizUrl := v } = cmpBizModel a b) := by
  refine ⟨?_, ?_, ?_⟩
  · simp [cmpBizModel]
  · simp [cmpBizModel]
  · intro u v
    rfl

/-- C4: after BuildVirtualNode the node carries exactly one taint and its
status phase is Pending, for every config and every starting node object. -/
theorem buildVirtualNode_one_taint_pending (cfg : BuildVirtualNodeConfig) (n : Node) :
    (buildVirtualNode cfg n).spec.taints.length = 1 ∧
    (buildVirtualNode cfg n).status.phase = NodePhase.pending :=
  ⟨rfl, rfl⟩

end Ark

namespace Mqtt

/-- A snapshot of the readable files: path to contents when readable, `none`
when reading the path fails (`os.ReadFile` and `tls.LoadX509KeyPair` are read
through it). -/
abbrev FileSystem := String → Option String

/-- A resolved handler slot of the client options: either the package-level
logging-only default, or the caller-supplied function value (identified
opaquely by a number). -/
inductive Handler
  | defaultHandler
  | user (id : Nat)
  deriving DecidableEq

/-- The defaulting applied to each handler slot of the ClientConfig: a nil
handler falls back to the logging-only default. -/
def resolveHandler (h : Option Nat) : Handler :=
  match h with
  | none => Handler.defaultHandler
  | some id => Handler.user id

/-- `time.Minute` in nanoseconds, the default keep-alive. -/
def timeMinute : Nat := 60000000000

/-- ClientConfig of the mqtt package; durations in nanoseconds, handler fields
as optional opaque function values. -/
structure ClientConfig where
  broker : String
  port : Int
  clientID : String
  username : String
  password : String
  caPath : String
  clientCrtPath : String
  clientKeyPath : String
  cleanSession : Bool
  keepAlive : Nat
  defaultMessageHandler : Option Nat
  onConnectHandler : Option Nat
  connectionLostHandler : Option Nat
  deriving DecidableEq

/-- crypto/tls Config restricted to the fields newTlsConfig writes: the
root-CA pool holds the PEM blobs appended to it, a certificate is the loaded
cert/key pair, and clientAuth 0 is Go's tls.NoClientCert (the zero value). -/
structure TLSConfig where
  insecureSkipVerify : Bool
  rootCAs : Option (List String)
  certificates : List (String × String)
  clientAuth : Nat
  deriving DecidableEq

/-- tls.LoadX509KeyPair: reads both files and pairs them, failing when either
read fails. -/
def tlsLoadX509KeyPair (fs : FileSystem) (crtPath keyPath : String) :
    Option (String × String) :=
  match fs crtPath, fs keyPath with
  | some crt, some key => some (crt, key)
  | _, _ => none

/-- newTlsConfig of the mqtt package: starts from a config with
InsecureSkipVerify set to true, reads the CA bundle at cfg.CAPath into the
root-CA pool (propagating a read error), and when cfg.ClientCrtPath is
non-empty loads the client cert/key pair into Certificates and assigns
ClientAuth = tls.NoClientCert. -/
def newTlsConfig (fs : FileSystem) (cfg : ClientConfig) : Except String TLSConfig :=
  match fs cfg.caPath with
  | none => Except.error ("read file failed: " ++ cfg.caPath)
  | some ca =>
    let config : TLSConfig :=
      { insecureSkipVerify := true, rootCAs := some [ca], certificates := [], clientAuth := 0 }
    if cfg.clientCrtPath ≠ "" then
      match tlsLoadX509KeyPair fs cfg.clientCrtPath cfg.clientKeyPath with
      | none => Except.error "load x509 key pair failed"
      | some kp => Except.ok { config with certificates := [kp], clientAuth := 0 }
    else
      Except.ok config

/-- The paho client options NewMqttClient assembles before connecting. -/
structure ClientOptions where
  clientID : String
  brokers : List String
  tlsConfig : Option TLSConfig
  username : String
  password : String
  defaultPublishHandler : Handler
  onConnectHandler : Handler
  connectionLostHandler : Handler
  autoReconnect : Bool
  keepAlive : Nat
  cleanSession : Bool
  deriving DecidableEq

/-- The option-assembly phase of NewMqttClient, mirroring the source up to the
`client.Connect()` call: with a non-empty CAPath it installs the TLS config
from newTlsConfig and the `ssl://broker:port` scheme (username/password stay at
their zero values); otherwise the `tcp://broker:port` scheme with
username/password from the config. Handler slots default when nil and a zero
keep-alive defaults to one minute; auto-reconnect is always set. -/
def newMqttClientOptions (fs : FileSystem) (cfg : ClientConfig) :
    Except String ClientOptions :=
  if cfg.caPath ≠ "" then
    match newTlsConfig fs cfg with
    | Except.error e => Except.error e
    | Except.ok tlsConfig =>
      Except.ok
        { clientID := cfg.clientID
          brokers := ["ssl://" ++ cfg.broker ++ ":" ++ toString cfg.port]
          tlsConfig := some tlsConfig
          username := ""
          password := ""
          defaultPublishHandler := resolveHandler cfg.defaultMessageHandler
          onConnectHandler := resolveHandler cfg.onConnectHandler
          connectionLostHandler := resolveHandler cfg.connectionLostHandler
          autoReconnect := true
          keepAlive := if cfg.keepAlive = 0 then timeMinute else cfg.keepAlive
          cleanSession := cfg.cleanSession }
  else
    Except.ok
      { clientID := cfg.clientID
        brokers := ["tcp://" ++ cfg.broker ++ ":" ++ toString cfg.port]
        tlsConfig := none
        username := cfg.username
        password := cfg.password
        defaultPublishHandler := resolveHandler cfg.defaultMessageHandler
        onConnectHandler := resolveHandler cfg.onConnectHandler
        connectionLostHandler := resolveHandler cfg.connectionLostHandler
        autoReconnect := true
        keepAlive := if cfg.keepAlive = 0 then timeMinute else cfg.keepAlive
        cleanSession := cfg.cleanSession }

/-- The constructed Client wraps the paho client; of the paho client only the
options it was created with are observable here. -/
structure Client where
  options : ClientOptions
  deriving DecidableEq

/-- NewMqttClient: assembles the options (propagating a TLS-setup error) and
then connects; the broker-side outcome of `client.Connect()` is a parameter
mapping the assembled options to an optional connection error, mirroring
`token.Wait() && token.Error() != nil`. -/
def newMqttClient (fs : FileSystem) (connectErr : ClientOptions → Option String)
    (cfg : ClientConfig) : Except String Client :=
  match newMqttClientOptions fs cfg with
  | Except.error e => Except.error e
  | Except.ok opts =>
    match connectErr opts with
    | some e => Except.error e
    | none => Except.ok { options := opts }

/-- A paho token: when (if ever) the operation completes, and the error the
operation completed with (`Token.Error()`). -/
structure Token where
  resolvesAt : Option Nat
  tokenError : Option String
  deriving DecidableEq

/-- paho `Token.Wait()`: blocks until the token completes and then returns
true unconditionally; the operation's error is reported only through
`Token.Error()`, which Wait does not consult. `none` models a call that never
returns because the token never completes. -/
def tokenWait (t : Token) : Option Bool :=
  t.resolvesAt.map (fun _ => true)

/-- paho `Token.WaitTimeout(d)`: true iff the token completes within d,
false on timeout — again regardless of `Token.Error()`. -/
def tokenWaitTimeout (t : Token) (d : Nat) : Bool :=
  match t.resolvesAt with
  | some r => decide (r ≤ d)
  | none => false

/-- The argument tuple `Client.client.Publish` receives. -/
structure PublishRequest where
  topic : String
  qos : Nat
  retained : Bool
  payload : String
  deriving DecidableEq

/-- The broker side of a publish: the token the transport answers a publish
request with. -/
abbrev Transport := PublishRequest → Token

/-- The request Pub and PubWithTimeout hand to the underlying
`c.client.Publish(topic, qos, true, msg)` call: the retained flag is the
literal true in the source. -/
def pubRequest (topic : String) (qos : Nat) (msg : String) : PublishRequest :=
  { topic := topic, qos := qos, retained := true, payload := msg }

/-- `Client.Pub`: publish and `Wait()` on the returned token. -/
def pub (tr : Transport) (topic : String) (qos : Nat) (msg : String) : Option Bool :=
  tokenWait (tr (pubRequest topic qos msg))

/-- `Client.PubWithTimeout`: publish and `WaitTimeout(timeout)` on the
returned token. -/
def pubWithTimeout (tr : Transport) (topic : String) (qos : Nat) (msg : String)
    (timeout : Nat) : Bool :=
  tokenWaitTimeout (tr (pubRequest topic qos msg)) timeout

/-- A transport whose publish token completes immediately but with a non-nil
error: the publish failed and the failure is recorded on the token. -/
def failingTransport : Transport :=
  fun _ => { resolvesAt := some 0, tokenError := some "publish rejected" }

/-- A successful NewMqttClient call carries exactly the options assembled by
the option phase. -/
theorem newMqttClient_ok_options (fs : FileSystem)
    (connectErr : ClientOptions → Option String) (cfg : ClientConfig) (cl : Client)
    (h : newMqttClient fs connectErr cfg = Except.ok cl) :
    newMqttClientOptions fs cfg = Except.ok cl.options := by
  unfold newMqttClient at h
  cases ho : newMqttClientOptions fs cfg with
  | error e => rw [ho] at h; simp at h
  | ok opts =>
    rw [ho] at h
    dsimp only at h
    cases hce : connectErr opts with
    | some e => rw [hce] at h; simp at h
    | none =>
      rw [hce] at h
      simp at h
      rw [← h]

/-- The fields of a TLS config newTlsConfig builds successfully: skip-verify is
on, the root pool holds exactly the CA bundle read from cfg.caPath, and with a
non-empty client-cert path the loaded pair sits in Certificates. -/
theorem newTlsConfig_ok_fields (fs : FileSystem) (cfg : ClientConfig) (tc : TLSConfig)
    (h : newTlsConfig fs cfg = Except.ok tc) :
    tc.insecureSkipVerify = true ∧
    (∃ ca : String, fs cfg.caPath = some ca ∧ tc.rootCAs = some [ca]) ∧
    (cfg.clientCrtPath ≠ "" →
      ∃ kp, tlsLoadX509KeyPair fs cfg.clientCrtPath cfg.clientKeyPath = some kp ∧
        tc.certificates = [kp]) := by
  unfold newTlsConfig at h
  cases hca : fs cfg.caPath with
  | none => rw [hca] at h; simp at h
  | some ca =>
    rw [hca] at h
    by_cases hcrt : cfg.clientCrtPath = ""
    · simp only [hcrt, ne_eq, not_true_eq_false, if_false] at h
      simp at h
      refine ⟨?_, ⟨ca, rfl, ?_⟩, ?_⟩
      · rw [← h]
      · rw [← h]
      · intro hc; exact absurd hcrt hc
    · simp only [ne_eq, hcrt, not_false_eq_true, if_true] at h
      cases hkp : tlsLoadX509KeyPair fs cfg.clientCrtPath cfg.clientKeyPath with
      | none => rw [hkp] at h; simp at h
      | some kp =>
        rw [hkp] at h
        simp at h
        refine ⟨?_, ⟨ca, rfl, ?_⟩, fun _ => ⟨kp, rfl, ?_⟩⟩
        · rw [← h]
        · rw [← h]
        · rw [← h]

end Mqtt

namespace Mqtt

/-- C5: NewMqttClient uses the secure scheme ssl://Broker:Port with a TLS
configuration built by newTlsConfig from the CA bundle at cfg.CAPath (with the
client cert/key pair attached when cfg.ClientCrtPath is non-empty) if and only
if cfg.CAPath is non-empty; otherwise it uses the plaintext scheme
tcp://Broker:Port and sets cfg.Username and cfg.Password on the options. -/
theorem newMqttClient_scheme_selection (fs : FileSystem)
    (connectErr : ClientOptions → Option String) (cfg : ClientConfig) (cl : Client)
    (h : newMqttClient fs connectErr cfg = Except.ok cl) :
    (cfg.caPath ≠ "" →
      cl.options.brokers = ["ssl://" ++ cfg.broker ++ ":" ++ toString cfg.port] ∧
      ∃ tc : TLSConfig, newTlsConfig fs cfg = Except.ok tc ∧
        cl.options.tlsConfig = some tc ∧
        (∃ ca : String, fs cfg.caPath = some ca ∧ tc.rootCAs = some [ca]) ∧
        (cfg.clientCrtPath ≠ "" →
          ∃ kp, tlsLoadX509KeyPair fs cfg.clientCrtPath cfg.clientKeyPath = some kp ∧
            tc.certificates = [kp])) ∧
    (cfg.caPath = "" →
      cl.options.brokers = ["tcp://" ++ cfg.broker ++ ":" ++ toString cfg.port] ∧
      cl.options.tlsConfig = none ∧
      cl.options.username = cfg.username ∧
      cl.options.password = cfg.password) := by
  have hopts := newMqttClient_ok_options fs connectErr cfg cl h
  constructor
  · intro hca
    rw [newMqttClientOptions, if_pos hca] at hopts
    cases htls : newTlsConfig fs cfg with
    | error e => rw [htls] at hopts; simp at hopts
    | ok tc =>
      rw [htls] at hopts
      simp at hopts
      have hfields := newTlsConfig_ok_fields fs cfg tc htls
      exact ⟨by rw [← hopts], tc, rfl, by rw [← hopts], hfields.2.1, hfields.2.2⟩
  · intro hca
    rw [newMqttClientOptions, if_neg (by simp [hca])] at hopts
    simp at hopts
    exact ⟨by rw [← hopts], by rw [← hopts], by rw [← hopts], by rw [← hopts]⟩

/-- A file system holding a CA bundle and a client certificate/key pair. -/
def fsDemo : FileSystem := fun p =>
  if p = "ca.pem" then some "CACERT"
  else if p = "client.crt" then some "CLIENTCRT"
  else if p = "client.key" then some "CLIENTKEY"
  else none

/-- A broker that accepts every connection. -/
def noConnectErr : ClientOptions → Option String := fun _ => none

/-- A client config with TLS material configured. -/
def cfgTLSDemo : ClientConfig :=
  { broker := "test-broker", port := 8883, clientID := "client-1", username := "user",
    password := "pass", caPath := "ca.pem", clientCrtPath := "client.crt",
    clientKeyPath := "client.key", cleanSession := true, keepAlive := 0,
    defaultMessageHandler := none, onConnectHandler := none, connectionLostHandler := none }

/-- The TLS config newTlsConfig builds from fsDemo and cfgTLSDemo. -/
def tlsDemo : TLSConfig :=
  { insecureSkipVerify := true, rootCAs := some ["CACERT"],
    certificates := [("CLIENTCRT", "CLIENTKEY")], clientAuth := 0 }

/-- The client NewMqttClient builds from fsDemo and cfgTLSDemo. -/
def clientTLSDemo : Client :=
  { options :=
    { clientID := "client-1"
      brokers := ["ssl://test-broker:8883"]
      tlsConfig := some tlsDemo
      username := ""
      password := ""
      defaultPublishHandler := Handler.defaultHandler
      onConnectHandler := Handler.defaultHandler
      connectionLostHandler := Handler.defaultHandler
      autoReconnect := true
      keepAlive := timeMinute
      cleanSession := true } }

/-- Witness for C5 at a concrete TLS-configured client config. -/
theorem newMqttClient_scheme_selection_witness :
    newMqttClient fsDemo noConnectErr cfgTLSDemo = Except.ok clientTLSDemo ∧
    clientTLSDemo.options.brokers = ["ssl://test-broker:8883"] := by
  have h : newMqttClient fsDemo noConnectErr cfgTLSDemo = Except.ok clientTLSDemo := by rfl
  exact ⟨h,
    ((newMqttClient_scheme_selection fsDemo noConnectErr cfgTLSDemo clientTLSDemo h).1
      (by decide)).1⟩

/-- C6: every TLS configuration newTlsConfig produces (and NewMqttClient then
installs on the connection options) has InsecureSkipVerify set to true, even
though the supplied CA bundle is installed as RootCAs. -/
theorem newTlsConfig_skips_server_verification (fs : FileSystem) (cfg : ClientConfig)
    (tc : TLSConfig) (h : newTlsConfig fs cfg = Except.ok tc) :
    tc.insecureSkipVerify = true ∧ tc.rootCAs ≠ none ∧
    (∀ (connectErr : ClientOptions → Option String) (cl : Client),
      cfg.caPath ≠ "" → newMqttClient fs connectErr cfg = Except.ok cl →
      cl.options.tlsConfig = some tc) := by
  have hfields := newTlsConfig_ok_fields fs cfg tc h
  refine ⟨hfields.1, ?_, ?_⟩
  · obtain ⟨ca, _, hroot⟩ := hfields.2.1
    rw [hroot]
    simp
  · intro connectErr cl hca hcl
    have hopts := newMqttClient_ok_options fs connectErr cfg cl hcl
    rw [newMqttClientOptions, if_pos hca, h] at hopts
    simp at hopts
    rw [← hopts]

/-- Witness for C6 at a concrete readable CA bundle. -/
theorem newTlsConfig_skips_server_verification_witness :
    newTlsConfig fsDemo cfgTLSDemo = Except.ok tlsDemo ∧
    tlsDemo.insecureSkipVerify = true := by
  have h : newTlsConfig fsDemo cfgTLSDemo = Except.ok tlsDemo := by rfl
  exact ⟨h, (newTlsConfig_skips_server_verification fsDemo cfgTLSDemo tlsDemo h).1⟩

/-- C7, evaluated at the failing input: when the transport resolves the publish
token with a non-nil error, Pub still returns true, because paho Token.Wait
returns true whenever the token completes and Pub never consults Token.Error;
this contradicts Pub's own doc comment (return false if send failed). The
timeout variant does return false when the deadline passes before the token
completes. -/
theorem pub_true_despite_publish_failure :
    (failingTransport (pubRequest "test-topic" 1 "payload")).tokenError =
      some "publish rejected" ∧
    pub failingTransport "test-topic" 1 "payload" = some true :=
  ⟨rfl, rfl⟩

/-- C10: both Pub and PubWithTimeout hand the underlying transport a publish
request whose retained flag is true, for every topic, QoS, payload and
timeout; the public publish operations build no other request. -/
theorem publish_retained_always_true (tr : Transport) (topic : String) (qos : Nat)
    (msg : String) (timeout : Nat) :
    (pubRequest topic qos msg).retained = true ∧
    pub tr topic qos msg = tokenWait (tr (pubRequest topic qos msg)) ∧
    pubWithTimeout tr topic qos msg timeout =
      tokenWaitTimeout (tr (pubRequest topic qos msg)) timeout :=
  ⟨rfl, rfl, rfl⟩

end Mqtt


namespace Root

/-- The observable face of the Register Controller as root.go uses it: whether
its Done channel eventually closes, and the value Err() reports. -/
structure Controller where
  doneCloses : Bool
  errValue : Option String
  deriving DecidableEq

/-- The outcome of NewBaseRegisterController as runRootCommand observes it:
an error, a nil controller without error, or a controller. -/
inductive Construction
  | fails (e : String)
  | nilController
  | ok (c : Controller)
  deriving DecidableEq

/-- The environment runRootCommand runs in: the result of setupTracing, the
constructor's outcome, and whether the process context is eventually
cancelled. -/
structure RootEnv where
  tracingErr : Option String
  construction : Construction
  ctxCancelled : Bool
  deriving DecidableEq

/-- What the RunE body does: blocks forever in the select, or returns an
optional error (none is exit code 0). -/
inductive Outcome
  | blocked
  | returns (e : Option String)
  deriving DecidableEq

/-- The result of a runRootCommand call, together with whether
registerController.Run was reached. -/
structure RootResult where
  controllerStarted : Bool
  outcome : Outcome
  deriving DecidableEq

/-- Shallow embedding of runRootCommand (src/commands/root/root.go, lines
47-94): a tracing-setup error returns immediately; a constructor error is
returned directly; a nil controller yields the literal error message; otherwise
the controller is started with Run, the select waits for the context to be
cancelled or the Done channel to close, and the controller's Err() value is
returned. -/
def runRootCommand (env : RootEnv) : RootResult :=
  match env.tracingErr with
  | some e => { controllerStarted := false, outcome := Outcome.returns (some e) }
  | none =>
    match env.construction with
    | Construction.fails e =>
      { controllerStarted := false, outcome := Outcome.returns (some e) }
    | Construction.nilController =>
      { controllerStarted := false
        outcome := Outcome.returns (some "register controller is nil") }
    | Construction.ok c =>
      if env.ctxCancelled || c.doneCloses then
        { controllerStarted := true, outcome := Outcome.returns c.errValue }
      else
        { controllerStarted := true, outcome := Outcome.blocked }

end Root

namespace Root

/-- C8: when tracing setup succeeds and construction yields a controller,
runRootCommand starts it, and as soon as the process context is cancelled or
the controller's Done channel closes it returns exactly the controller's Err()
value (nil for clean shutdown, non-nil otherwise); when construction fails,
the construction error is returned directly without starting the controller. -/
theorem runRootCommand_returns_controller_err (env : RootEnv)
    (h : env.tracingErr = none) :
    (∀ c : Controller, env.construction = Construction.ok c →
      (runRootCommand env).controllerStarted = true ∧
      (env.ctxCancelled = true ∨ c.doneCloses = true →
        (runRootCommand env).outcome = Outcome.returns c.errValue)) ∧
    (∀ e : String, env.construction = Construction.fails e →
      (runRootCommand env).controllerStarted = false ∧
      (runRootCommand env).outcome = Outcome.returns (some e)) := by
  constructor
  · intro c hc
    constructor
    · rw [runRootCommand, h, hc]
      dsimp only
      by_cases hdone : env.ctxCancelled || c.doneCloses
      · rw [if_pos hdone]
      · rw [if_neg hdone]
    · intro hfin
      have hdone : (env.ctxCancelled || c.doneCloses) = true := by
        rcases hfin with hf | hf <;> simp [hf]
      rw [runRootCommand, h, hc]
      dsimp only
      rw [hdone]
      rfl
  · intro e he
    rw [runRootCommand, h, he]
    exact ⟨rfl, rfl⟩

/-- A run in which tracing succeeds, construction yields a controller whose
Done closes with a nil Err, and the context is never cancelled. -/
def envCleanShutdown : RootEnv :=
  { tracingErr := none
    construction := Construction.ok { doneCloses := true, errValue := none }
    ctxCancelled := false }

/-- Witness for C8 at a concrete clean-shutdown run. -/
theorem runRootCommand_returns_controller_err_witness :
    envCleanShutdown.tracingErr = none ∧
    (runRootCommand envCleanShutdown).controllerStarted = true ∧
    (runRootCommand envCleanShutdown).outcome = Outcome.returns none := by
  have h :=
    (runRootCommand_returns_controller_err envCleanShutdown rfl).1
      { doneCloses := true, errValue := none } rfl
  exact ⟨rfl, h.1, h.2 (Or.inr rfl)⟩

end Root
